import Mathlib

/-!
Verification of the localization header `language.h` of the
reTerminal E1002 weather-station repository.

The header declares, behind a preprocessor conditional, two alternative
sets of constant strings: weekday names (7), month names (12) and eight
UI labels, in French (lines 7-16) and in English (lines 19-28).  We embed
each block as a `LocalizationTable`, the `#ifdef LANGUAGE_FR / #else`
selection as a function of the build configuration, and the lookup
contract described by the specification as bounds-checked accessors.
-/

namespace WeatherStation

/-- The data declared by one branch of the preprocessor conditional in
`language.h`: the `days` and `months` arrays and the eight UI label
strings, with the field names of the source. -/
structure LocalizationTable where
  days : List String
  months : List String
  today_text : String
  forecast_text : String
  ha_sensor_text : String
  crypto_text : String
  battery_text : String
  indoor_text : String
  outdoor_text : String
  other_text : String
deriving DecidableEq

/-- The French block, lines 7-16 of `language.h`. -/
def frTable : LocalizationTable where
  days := ["Dimanche", "Lundi", "Mardi", "Mercredi", "Jeudi", "Vendredi", "Samedi"]
  months := ["Janvier", "Février", "Mars", "Avril", "Mai", "Juin", "Juillet",
             "Août", "Septembre", "Octobre", "Novembre", "Décembre"]
  today_text := "Aujourd'hui"
  forecast_text := "Previsions"
  ha_sensor_text := "Capteurs Home Assistant"
  crypto_text := "Crypto"
  battery_text := "Batterie"
  indoor_text := "Interieur"
  outdoor_text := "Exterieur"
  other_text := "Serre"

/-- The English block, lines 19-28 of `language.h`. -/
def enTable : LocalizationTable where
  days := ["Sunday", "Monday", "Tuesday", "Wednesday", "Thursday", "Friday", "Saturday"]
  months := ["January", "February", "March", "April", "May", "June", "July",
             "August", "September", "October", "November", "December"]
  today_text := "Today"
  forecast_text := "Forecast"
  ha_sensor_text := "Home Assistant sensors"
  crypto_text := "Crypto"
  battery_text := "Battery"
  indoor_text := "Indoor"
  outdoor_text := "Outdoor"
  other_text := "Other"

/-- The closed set of locale tags supported by the header. -/
inductive Locale where
  | FR
  | EN
deriving DecidableEq

/-- The table belonging to a locale tag: `FR` names the block guarded by
`#ifdef LANGUAGE_FR`, `EN` the block of the `#else` branch. -/
def localizationTable : Locale → LocalizationTable
  | Locale.FR => frTable
  | Locale.EN => enTable

/-- Embedding of the build-time selection, lines 5-29 of `language.h`.
The preprocessor tests only whether `LANGUAGE_FR` is defined: if so the
French block is compiled, otherwise the `#else` branch compiles the
English block; the `LANGUAGE_EN` macro of line 3 is never tested.  A
`none` result would model a rejected configuration (a `#error`
directive); the header contains no such directive, so every
configuration produces a table. -/
def preprocess (fr_defined _en_defined : Bool) : Option LocalizationTable :=
  some (if fr_defined then frTable else enTable)

/-- A build configuration matching one of the two selections offered by
the comment of line 1: exactly one of the two language macros defined. -/
def recognizedSelection (fr_defined en_defined : Bool) : Bool :=
  (fr_defined && !en_defined) || (!fr_defined && en_defined)

/-- Line 2 of the header as shipped: `#define LANGUAGE_FR` is active. -/
def LANGUAGE_FR_defined : Bool := true

/-- Line 3 of the header as shipped: `//#define LANGUAGE_EN` is commented out. -/
def LANGUAGE_EN_defined : Bool := false

/-- The lookup failure named by the specification for an out-of-range index. -/
inductive LookupError where
  | IndexOutOfRange
deriving DecidableEq

/-- Modelled from the spec: the repository ships only the constant
arrays, so the public accessor of the specification — look up a weekday
name by index, bounds-checked, failing with `IndexOutOfRange` outside
0-6 — is not in `src/`; it is embedded here following the words of the
specification over the `days` array of the source. -/
def weekdayName (l : Locale) (i : Nat) : Except LookupError String :=
  match (localizationTable l).days[i]? with
  | some s => Except.ok s
  | none => Except.error LookupError.IndexOutOfRange

/-- Modelled from the spec: bounds-checked month-name lookup, failing
with `IndexOutOfRange` outside 0-11, over the `months` array of the
source. -/
def monthName (l : Locale) (i : Nat) : Except LookupError String :=
  match (localizationTable l).months[i]? with
  | some s => Except.ok s
  | none => Except.error LookupError.IndexOutOfRange

/-- The eight UI label strings of a table, in source order. -/
def labelStrings (t : LocalizationTable) : List String :=
  [t.today_text, t.forecast_text, t.ha_sensor_text, t.crypto_text,
   t.battery_text, t.indoor_text, t.outdoor_text, t.other_text]

/-- Every string a table exposes: weekday names, month names, labels. -/
def allStrings (t : LocalizationTable) : List String :=
  t.days ++ t.months ++ labelStrings t

/-- The two tables differ (already their `today_text` fields do). -/
theorem frTable_ne_enTable : frTable ≠ enTable := by
  decide

/-- Claim C1: for each supported locale (FR and EN), the weekday-name
table has exactly 7 entries and the month-name table has exactly 12
entries. -/
theorem table_lengths (l : Locale) :
    (localizationTable l).days.length = 7 ∧
    (localizationTable l).months.length = 12 := by
  cases l <;> exact ⟨rfl, rfl⟩

/-- Claim C2: selecting locale FR makes the today label equal to the
string "Aujourd'hui", and selecting locale EN makes it equal to
"Today". -/
theorem today_label :
    (localizationTable Locale.FR).today_text = "Aujourd'hui" ∧
    (localizationTable Locale.EN).today_text = "Today" :=
  ⟨rfl, rfl⟩

/-- Claim C3 counterexample: not every one of the 8 UI labels changes
when the locale selector is switched — the `crypto_text` label is the
string "Crypto" in the French table and in the English table alike
(lines 12 and 24 of the source). -/
theorem crypto_label_is_shared :
    frTable.crypto_text = enTable.crypto_text ∧ frTable.crypto_text = "Crypto" :=
  ⟨rfl, rfl⟩

/-- Claim C3 (amended): switching the locale selector changes 7 of the
8 exposed UI labels — every label field except `crypto_text`, which is
"Crypto" in both tables — and all strings exposed under one selection
come from a single locale's table (no partial mix). -/
theorem labels_differ_except_crypto :
    frTable.today_text ≠ enTable.today_text ∧
    frTable.forecast_text ≠ enTable.forecast_text ∧
    frTable.ha_sensor_text ≠ enTable.ha_sensor_text ∧
    frTable.crypto_text = enTable.crypto_text ∧
    frTable.battery_text ≠ enTable.battery_text ∧
    frTable.indoor_text ≠ enTable.indoor_text ∧
    frTable.outdoor_text ≠ enTable.outdoor_text ∧
    frTable.other_text ≠ enTable.other_text ∧
    (∀ fr en : Bool,
      preprocess fr en = some frTable ∨ preprocess fr en = some enTable) := by
  refine ⟨by decide, by decide, by decide, rfl, by decide, by decide, by decide,
    by decide, fun fr en => ?_⟩
  cases fr
  · exact Or.inr rfl
  · exact Or.inl rfl

/-- Claim C4: for every locale, looking up a weekday name at an index
0-6 or a month name at an index 0-11 returns the corresponding string
of that locale's table, and under the in-range precondition the
`IndexOutOfRange` branch of the lookup is unreachable. -/
theorem lookup_in_range (l : Locale) (i : Nat) :
    (i < 7 →
      weekdayName l i = Except.ok ((localizationTable l).days.getD i "") ∧
      weekdayName l i ≠ Except.error LookupError.IndexOutOfRange) ∧
    (i < 12 →
      monthName l i = Except.ok ((localizationTable l).months.getD i "") ∧
      monthName l i ≠ Except.error LookupError.IndexOutOfRange) := by
  constructor
  · intro h
    cases l <;> interval_cases i <;> exact ⟨rfl, fun hc => nomatch hc⟩
  · intro h
    cases l <;> interval_cases i <;> exact ⟨rfl, fun hc => nomatch hc⟩

/-- Witness for C4 at locale FR, weekday index 0 and month index 11. -/
theorem lookup_in_range_witness :
    (weekdayName Locale.FR 0 = Except.ok ((localizationTable Locale.FR).days.getD 0 "") ∧
      weekdayName Locale.FR 0 ≠ Except.error LookupError.IndexOutOfRange) ∧
    (monthName Locale.FR 11 = Except.ok ((localizationTable Locale.FR).months.getD 11 "") ∧
      monthName Locale.FR 11 ≠ Except.error LookupError.IndexOutOfRange) :=
  ⟨(lookup_in_range Locale.FR 0).1 (by decide),
   (lookup_in_range Locale.FR 11).2 (by decide)⟩

/-- Claim C5 counterexample: the build configuration with neither
language macro defined is a selection outside the closed set {FR, EN},
yet nothing prevents it at build time — the preprocessor accepts it and
the `#else` branch silently produces the English table. -/
theorem unrecognized_selection_succeeds :
    recognizedSelection false false = false ∧
    preprocess false false = some enTable :=
  ⟨rfl, rfl⟩

/-- Claim C5 (amended): the header performs no exhaustive enumeration
check over a closed set of locale tags; every build configuration,
recognized or not, succeeds, yielding the French table when
`LANGUAGE_FR` is defined and otherwise silently falling back to the
English table through the `#else` branch. -/
theorem preprocess_never_rejects (fr en : Bool) :
    (preprocess fr en).isSome = true ∧
    preprocess fr en = some (if fr then frTable else enTable) :=
  ⟨rfl, rfl⟩

/-- Claim C6: for every locale, weekday index 0 maps to the
Sunday-equivalent name and month index 0 to the January-equivalent
name, the
sequences being ordered through index 6 (Saturday-equivalent) and index
11 (December-equivalent). -/
theorem calendar_order :
    frTable.days = ["Dimanche", "Lundi", "Mardi", "Mercredi", "Jeudi",
      "Vendredi", "Samedi"] ∧
    frTable.months = ["Janvier", "Février", "Mars", "Avril", "Mai", "Juin",
      "Juillet", "Août", "Septembre", "Octobre", "Novembre", "Décembre"] ∧
    enTable.days = ["Sunday", "Monday", "Tuesday", "Wednesday", "Thursday",
      "Friday", "Saturday"] ∧
    enTable.months = ["January", "February", "March", "April", "May", "June",
      "July", "August", "September", "October", "November", "December"] ∧
    (∀ l : Locale, (localizationTable l).days[0]? = some (if l = Locale.FR
      then "Dimanche" else "Sunday") ∧
      (localizationTable l).days[6]? = some (if l = Locale.FR
        then "Samedi" else "Saturday") ∧
      (localizationTable l).months[0]? = some (if l = Locale.FR
        then "Janvier" else "January") ∧
      (localizationTable l).months[11]? = some (if l = Locale.FR
        then "Décembre" else "December")) := by
  refine ⟨rfl, rfl, rfl, rfl, fun l => ?_⟩
  cases l <;> exact ⟨rfl, rfl, rfl, rfl⟩

/-- Claim C7: every string in each locale's table — the 7 weekday
names, the 12 month names and the 8 UI labels, for FR and for EN — is
non-empty. -/
theorem all_strings_nonempty (l : Locale) :
    ∀ s ∈ allStrings (localizationTable l), s ≠ "" := by
  cases l <;> decide

/-- Witness for C7 at locale FR and the string "Dimanche". -/
theorem all_strings_nonempty_witness : "Dimanche" ≠ "" :=
  all_strings_nonempty Locale.FR "Dimanche" (by decide)

/-- Claim C8: exactly one locale table is active at a time — every
build configuration selects either the French table or the English one
but never both (the tables differ) and never a blend; in this pure
embedding the selected table is a constant of the configuration,
mutated by no operation. -/
theorem exactly_one_table_active (fr en : Bool) :
    Xor' (preprocess fr en = some frTable) (preprocess fr en = some enTable) := by
  cases fr
  · exact Or.inr ⟨rfl, fun h => frTable_ne_enTable (Option.some_injective _ h).symm⟩
  · exact Or.inl ⟨rfl, fun h => frTable_ne_enTable (Option.some_injective _ h)⟩

/-- Claim C9: lookups are pure and deterministic — two lookups with
equal locale tags and equal indices return the identical string. -/
theorem lookup_deterministic (l₁ l₂ : Locale) (i₁ i₂ : Nat)
    (hl : l₁ = l₂) (hi : i₁ = i₂) :
    weekdayName l₁ i₁ = weekdayName l₂ i₂ ∧
    monthName l₁ i₁ = monthName l₂ i₂ := by
  subst hl
  subst hi
  exact ⟨rfl, rfl⟩

/-- Witness for C9 at locale EN and index 3. -/
theorem lookup_deterministic_witness :
    weekdayName Locale.EN 3 = weekdayName Locale.EN 3 ∧
    monthName Locale.EN 3 = monthName Locale.EN 3 :=
  lookup_deterministic Locale.EN Locale.EN 3 3 rfl rfl

/-- Claim C10: in the configuration as shipped, `LANGUAGE_FR` is
defined and `LANGUAGE_EN` is commented out, so the build selects the
French table: `days[0]` is "Dimanche" and `today_text` is
"Aujourd'hui". -/
theorem shipped_default_is_french :
    LANGUAGE_FR_defined = true ∧
    LANGUAGE_EN_defined = false ∧
    preprocess LANGUAGE_FR_defined LANGUAGE_EN_defined = some frTable ∧
    frTable.days[0]? = some "Dimanche" ∧
    frTable.today_text = "Aujourd'hui" :=
  ⟨rfl, rfl, rfl, rfl, rfl⟩

end WeatherStation
